import Mathlib

/-!
Verification of the mlxprs connection / debug-runtime core.

Shallow embedding of:
  * `src/client/marklogicClient.ts` — `MlClientParameters` (constructor,
    `sameAs`), `ClientContext` (constructor side effects on its parameters),
    `sendRows`/`sendRowsSerialized`, `getConnectedServers`'s per-session
    name-lookup fan-out, and `filterJsServerByConnectedStatus`;
  * the `ClientFactory` class — constructor and the three role-parameter
    derivations (`newRestClientParams`, `newManageClientParams`,
    `newTestClientParams`);
  * the two debug-session runtimes: `MLRuntime` (SJS dialect) and
    `XqyRuntime` (XQuery dialect) — launch, terminate, breakpoint
    set/remove with expression-id caching, and `waitTillPaused`.

JavaScript value conventions used throughout the embedding:
  * a raw configuration bag field is `Option α`; `none` stands for an
    absent key, or a key present with `undefined`/`null` (all of which read
    identically through the constructors' `||`-defaulting);
  * `JSNum` models a JavaScript number that may be `NaN` (   `Number(x)` of a
    missing field); `JSVal` models an arbitrary primitive compared only with
    strict equality `===`, for the verbatim-copied `accessTokenDuration`
    field: `undefined === undefined` is `true` while `NaN === NaN` is
    `false`;
  * remote HTTP calls are modelled by passing their outcome (`Except`) or an
    outcome-producing oracle function as an explicit argument; the functions
    below compute the resulting local state and the list of issued calls.
-/

namespace Mlxprs

/-- A JavaScript number that may be `NaN` (for example `Number(undefined)`). -/
inductive JSNum where
  | nan : JSNum
  | num : Int → JSNum
deriving DecidableEq, Repr

/-- The JavaScript global `isNaN` applied to a number-typed field. -/
def JSNum.isNaNb : JSNum → Bool
  | .nan => true
  | .num _ => false

/-- JavaScript strict equality `===` on numbers: `NaN === NaN` is `false`. -/
def JSNum.strictEq : JSNum → JSNum → Bool
  | .num a, .num b => a == b
  | _, _ => false

/-- A JavaScript primitive compared only with `===`: `undefined`, `NaN`, or
any other value represented by a canonical string. Used for the verbatim
copied `accessTokenDuration` field of `MlClientParameters`. -/
inductive JSVal where
  | nan : JSVal
  | undef : JSVal
  | val : String → JSVal
deriving DecidableEq, Repr

/-- JavaScript strict equality `===` on `JSVal`. -/
def JSVal.strictEq : JSVal → JSVal → Bool
  | .undef, .undef => true
  | .val a, .val b => a == b
  | _, _ => false

/-- JavaScript `x || d` for string-valued configuration fields: an absent
value (`undefined`/`null`) and the empty string are falsy. -/
def jsOrStr : Option String → String → String
  | some s, d => if s = "" then d else s
  | none, d => d

/-- JavaScript `Number(x)` for a bag field holding a number or nothing:
`Number(undefined)` is `NaN`. -/
def jsNumber : Option JSNum → JSNum
  | some j => j
  | none => .nan

/-- JavaScript `Number(x) || d`: both `NaN` and `0` are falsy and fall
through to the default. -/
def jsNumOr : Option JSNum → Int → Int
  | some (.num n), d => if n = 0 then d else n
  | some .nan, d => d
  | none, d => d

/-- JavaScript `Boolean(x)` for a bag field holding a boolean or nothing. -/
def jsBool : Option Bool → Bool
  | some b => b
  | none => false

/-- ASCII uppercase of one character, the case analysis JavaScript's
`toUpperCase` performs on every character this repository feeds it. -/
def jsCharToUpper (c : Char) : Char :=
  if 97 ≤ c.toNat ∧ c.toNat ≤ 122 then Char.ofNat (c.toNat - 32) else c

/-- JavaScript `s.toUpperCase()` (the repository only applies it to ASCII
auth-scheme strings). -/
def jsToUpperCase (s : String) : String :=
  String.mk (s.data.map jsCharToUpper)

/-- A raw key/value configuration bag (`Record<string, any>`), restricted to
the keys the `MlClientParameters` and `ClientFactory` constructors and the
`ClientFactory` role derivations mention. `none` = key absent (or present
with `undefined`/`null`). -/
structure RawBag where
  host : Option String := none
  port : Option JSNum := none
  basePath : Option String := none
  restBasePath : Option String := none
  managePort : Option JSNum := none
  manageBasePath : Option String := none
  adminPort : Option JSNum := none
  adminBasePath : Option String := none
  testPort : Option JSNum := none
  testBasePath : Option String := none
  user : Option String := none
  password : Option String := none
  pwd : Option String := none
  database : Option String := none
  contentDb : Option String := none
  documentsDb : Option String := none
  modulesDb : Option String := none
  authType : Option String := none
  apiKey : Option String := none
  accessTokenDuration : Option JSVal := none
  ssl : Option Bool := none
  pathToCa : Option String := none
  rejectUnauthorized : Option Bool := none
deriving DecidableEq, Repr

/-- One key of a JavaScript object spread `{ ...a, ...b }`: `b`'s value wins
when present. -/
def spreadKey {α : Type} : Option α → Option α → Option α
  | some v, _ => some v
  | none, x => x

/-- JavaScript object spread `{ ...a, ...b }` over the modelled keys. -/
def mergeBags (a b : RawBag) : RawBag where
  host := spreadKey b.host a.host
  port := spreadKey b.port a.port
  basePath := spreadKey b.basePath a.basePath
  restBasePath := spreadKey b.restBasePath a.restBasePath
  managePort := spreadKey b.managePort a.managePort
  manageBasePath := spreadKey b.manageBasePath a.manageBasePath
  adminPort := spreadKey b.adminPort a.adminPort
  adminBasePath := spreadKey b.adminBasePath a.adminBasePath
  testPort := spreadKey b.testPort a.testPort
  testBasePath := spreadKey b.testBasePath a.testBasePath
  user := spreadKey b.user a.user
  password := spreadKey b.password a.password
  pwd := spreadKey b.pwd a.pwd
  database := spreadKey b.database a.database
  contentDb := spreadKey b.contentDb a.contentDb
  documentsDb := spreadKey b.documentsDb a.documentsDb
  modulesDb := spreadKey b.modulesDb a.modulesDb
  authType := spreadKey b.authType a.authType
  apiKey := spreadKey b.apiKey a.apiKey
  accessTokenDuration := spreadKey b.accessTokenDuration a.accessTokenDuration
  ssl := spreadKey b.ssl a.ssl
  pathToCa := spreadKey b.pathToCa a.pathToCa
  rejectUnauthorized := spreadKey b.rejectUnauthorized a.rejectUnauthorized

/-- `MlClientParameters` after construction (`src/client/marklogicClient.ts`).
`contentDb` is `Option String` because the `ClientContext` constructor can
later assign `null` to it; the constructor itself always produces `some`. -/
structure MlClientParameters where
  contentDb : Option String
  modulesDb : String
  host : Option String
  port : JSNum
  managePort : Int
  adminPort : Int
  testPort : JSNum
  user : Option String
  pwd : Option String
  authType : String
  apiKey : Option String
  accessTokenDuration : JSVal
  ssl : Bool
  pathToCa : String
  rejectUnauthorized : Bool
  manageBasePath : String
  adminBasePath : String
  restBasePath : String
  testBasePath : String
deriving DecidableEq, Repr

/-- `ClientContext.DEFAULT_MANAGE_PORT`. -/
def DEFAULT_MANAGE_PORT : Int := 8002

/-- `ClientContext.DEFAULT_ADMIN_PORT`. -/
def DEFAULT_ADMIN_PORT : Int := 8001

/-- The `MlClientParameters` constructor: field-by-field translation of
`constructor(rawParams)` including the trailing auth-scheme check
(`DIGEST`/`BASIC`/`CLOUD` preserved, everything else — `undefined`
included — coerced to `DIGEST`). -/
def mkMlClientParameters (raw : RawBag) : MlClientParameters where
  host := raw.host
  port := jsNumber raw.port
  restBasePath := jsOrStr raw.restBasePath ""
  managePort := jsNumOr raw.managePort DEFAULT_MANAGE_PORT
  manageBasePath := jsOrStr raw.manageBasePath ""
  adminPort := jsNumOr raw.adminPort DEFAULT_ADMIN_PORT
  adminBasePath := jsOrStr raw.adminBasePath ""
  testPort := jsNumber raw.testPort
  testBasePath := jsOrStr raw.testBasePath ""
  user := raw.user
  pwd := raw.pwd
  contentDb := some (jsOrStr raw.contentDb (jsOrStr raw.documentsDb ""))
  modulesDb := jsOrStr raw.modulesDb ""
  authType :=
    match raw.authType with
    | some s => if s = "DIGEST" ∨ s = "BASIC" ∨ s = "CLOUD" then s else "DIGEST"
    | none => "DIGEST"
  apiKey := raw.apiKey
  accessTokenDuration :=
    match raw.accessTokenDuration with
    | some v => v
    | none => .undef
  ssl := jsBool raw.ssl
  pathToCa := jsOrStr raw.pathToCa ""
  rejectUnauthorized := jsBool raw.rejectUnauthorized

/-- `MlClientParameters.sameAs(other)`: the exact comparison set of the
source, with the both-`NaN` escape on `port` and strict equality
everywhere else. -/
def MlClientParameters.sameAs (a b : MlClientParameters) : Bool :=
  (a.host == b.host) &&
  ((a.port.isNaNb && b.port.isNaNb) || a.port.strictEq b.port) &&
  (a.contentDb == b.contentDb) &&
  (a.modulesDb == b.modulesDb) &&
  (a.user == b.user) &&
  (a.pwd == b.pwd) &&
  (a.authType == b.authType) &&
  (a.apiKey == b.apiKey) &&
  a.accessTokenDuration.strictEq b.accessTokenDuration &&
  (a.ssl == b.ssl) &&
  (a.pathToCa == b.pathToCa) &&
  (a.rejectUnauthorized == b.rejectUnauthorized)

/-- The effect of the `ClientContext` constructor on the parameter object it
is given: `this.params.authType = params.authType.toUpperCase()` and
`if (!this.params.contentDb) this.params.contentDb = null` (the CA-file read
and database-client creation touch no field of `params`). -/
def ClientContext.updateParams (p : MlClientParameters) : MlClientParameters :=
  let p1 : MlClientParameters := { p with authType := jsToUpperCase p.authType }
  if p1.contentDb = none ∨ p1.contentDb = some "" then
    { p1 with contentDb := none }
  else
    p1

/-- `ClientFactory` after construction (the clientFactory source file). The
constructor never assigns `restBasePath`, so that field is always
`undefined` (`none`) on a constructor-produced factory; the structure keeps
it so the derivations can read it exactly as the source does. -/
structure ClientFactory where
  host : Option String
  port : JSNum
  basePath : String
  user : Option String
  password : Option String
  database : String
  authType : String
  ssl : Bool
  rejectUnauthorized : Bool
  pathToCa : String
  modulesDb : String
  managePort : JSNum
  adminPort : JSNum
  testPort : JSNum
  manageBasePath : String
  adminBasePath : String
  restBasePath : Option String
  testBasePath : String
deriving DecidableEq, Repr

/-- The `ClientFactory` constructor. It reads the `contentDb`/`documentsDb`
keys (never a `database` key) for `this.database`, and its trailing
auth-scheme check recognises only `DIGEST` and `BASIC`. -/
def mkClientFactory (raw : RawBag) : ClientFactory where
  host := raw.host
  port := jsNumber raw.port
  basePath := jsOrStr raw.basePath ""
  managePort := jsNumber raw.managePort
  manageBasePath := jsOrStr raw.manageBasePath ""
  testPort := jsNumber raw.testPort
  testBasePath := jsOrStr raw.testBasePath ""
  adminPort := jsNumber raw.adminPort
  adminBasePath := jsOrStr raw.adminBasePath ""
  user := raw.user
  password := raw.password
  database := jsOrStr raw.contentDb (jsOrStr raw.documentsDb "")
  modulesDb := jsOrStr raw.modulesDb ""
  authType :=
    match raw.authType with
    | some s => if s = "DIGEST" ∨ s = "BASIC" then s else "DIGEST"
    | none => "DIGEST"
  ssl := jsBool raw.ssl
  pathToCa := jsOrStr raw.pathToCa ""
  rejectUnauthorized := jsBool raw.rejectUnauthorized
  restBasePath := none

/-- The `configParams` object literal built inside
`ClientFactory.newRestClientParams`: note the base database travels under
the key `database` and the base path under `basePath` (from
`this.restBasePath`). -/
def ClientFactory.restConfigParams (f : ClientFactory) : RawBag where
  host := f.host
  user := f.user
  password := f.password
  port := some f.port
  basePath := f.restBasePath
  database := some f.database
  modulesDb := some f.modulesDb
  authType := some (jsToUpperCase f.authType)
  ssl := some f.ssl
  pathToCa := some (jsOrStr (some f.pathToCa) "")
  rejectUnauthorized := some f.rejectUnauthorized

/-- The `configParams` object literal built inside
`ClientFactory.newManageClientParams` (`database: null`, `modulesDb: null`). -/
def ClientFactory.manageConfigParams (f : ClientFactory) : RawBag where
  host := f.host
  user := f.user
  password := f.password
  port := some f.managePort
  basePath := some f.manageBasePath
  database := none
  modulesDb := none
  authType := some (jsToUpperCase f.authType)
  ssl := some f.ssl
  pathToCa := some (jsOrStr (some f.pathToCa) "")
  rejectUnauthorized := some f.rejectUnauthorized

/-- The `configParams` object literal built inside
`ClientFactory.newTestClientParams` (`database: null`, `modulesDb: null`). -/
def ClientFactory.testConfigParams (f : ClientFactory) : RawBag where
  host := f.host
  user := f.user
  password := f.password
  port := some f.testPort
  basePath := some f.testBasePath
  database := none
  modulesDb := none
  authType := some (jsToUpperCase f.authType)
  ssl := some f.ssl
  pathToCa := some (jsOrStr (some f.pathToCa) "")
  rejectUnauthorized := some f.rejectUnauthorized

/-- `ClientFactory.newRestClientParams(overrides)`:
`new ClientFactory({ ...configParams, ...overrides })`. -/
def ClientFactory.newRestClientParams (f : ClientFactory) (overrides : RawBag) :
    ClientFactory :=
  mkClientFactory (mergeBags f.restConfigParams overrides)

/-- `ClientFactory.newManageClientParams(overrides)`. -/
def ClientFactory.newManageClientParams (f : ClientFactory) (overrides : RawBag) :
    ClientFactory :=
  mkClientFactory (mergeBags f.manageConfigParams overrides)

/-- `ClientFactory.newTestClientParams(overrides)`. -/
def ClientFactory.newTestClientParams (f : ClientFactory) (overrides : RawBag) :
    ClientFactory :=
  mkClientFactory (mergeBags f.testConfigParams overrides)

/-- The shared local-state alphabet of both debug-session runtimes. -/
inductive RunTimeState where
  | shutdown
  | launched
  | attached
  | error
deriving DecidableEq, Repr

/-- The mutable state of `MLRuntime` (SJS dialect). -/
structure MLRuntime where
  hostName : String := ""
  username : String := ""
  password : String := ""
  rid : String := ""
  runTimeState : RunTimeState := .shutdown
deriving DecidableEq, Repr

/-- `MLRuntime.launchWithDebugEval(scriptLocation)`: reads the script (file
I/O external), calls `setRunTimeState("launched")` before dispatching, then
returns the raw dispatch promise. The dispatch outcome neither assigns
`_rid` nor changes the state again; it is returned to the caller as-is. -/
def MLRuntime.launchWithDebugEval (s : MLRuntime)
    (dispatch : Except String String) : MLRuntime × Except String String :=
  ({ s with runTimeState := .launched }, dispatch)

/-- `MLRuntime.terminate()`: one best-effort `request-cancel` POST
(`server-name=TaskServer`); the local state is not assigned. -/
def MLRuntime.terminate (s : MLRuntime) (outcome : Except String String) :
    MLRuntime × Except String String :=
  (s, outcome)

/-- One `wait()` call's outcome as seen by `waitTillPaused`: a resolved
payload string, or a rejection. -/
inductive WaitOutcome where
  | ok : String → WaitOutcome
  | err : String → WaitOutcome
deriving DecidableEq, Repr

/-- `MLRuntime.waitTillPaused()` run against a server whose successive
`wait()` outcomes are the given list (the i-th element is the i-th poll's
outcome). Returns the final outcome together with the number of `wait()`
calls issued; `none` when the list is exhausted without a decision (the
source would simply keep polling). An empty payload retries, a non-empty
payload resolves, a rejection re-throws immediately. -/
def MLRuntime.waitTillPaused : List WaitOutcome → Option (WaitOutcome × Nat)
  | [] => none
  | .ok payload :: rest =>
      if payload = "" then
        match MLRuntime.waitTillPaused rest with
        | some (r, n) => some (r, n + 1)
        | none => none
      else
        some (.ok payload, 1)
  | .err e :: _ => some (.err e, 1)

/-- The mutable state of `XqyRuntime` (XQuery dialect); the connection
handle carries no verified state and is omitted. -/
structure XqyRuntime where
  rid : String := ""
  runTimeState : RunTimeState := .shutdown
deriving DecidableEq, Repr

/-- `XqyRuntime.launchWithDebugEval(query)`: `sendXQuery(..., 'dbg')` with a
fulfilled result setting `_rid = fulfill[0]['value']` then the state to
`launched`, and an error setting the state to `error` (rid untouched). A
successful dbg-eval dispatch always carries at least one result row, so the
success payload is the first row's value plus the remaining rows. -/
def XqyRuntime.launchWithDebugEval (s : XqyRuntime)
    (outcome : Except String (String × List String)) : XqyRuntime :=
  match outcome with
  | .ok (firstRowValue, _) =>
      { s with rid := firstRowValue, runTimeState := .launched }
  | .error _ => { s with runTimeState := .error }

/-- `XqyRuntime.terminate()`: one best-effort
`dbg:disconnent(xdmp:server())` call; the local state is not assigned. -/
def XqyRuntime.terminate (s : XqyRuntime) (outcome : Except String String) :
    XqyRuntime × Except String String :=
  (s, outcome)

/-- An XQuery-dialect breakpoint (`XqyBreakPoint`): `expr` is the lazily
resolved remote expression id, `none` while unresolved. -/
structure XqyBreakPoint where
  uri : String
  line : Int
  column : Option Int := none
  condition : Option String := none
  expr : Option Int := none
deriving DecidableEq, Repr

/-- JavaScript falsiness of the `expr?: number` field, as tested by
`if (!location.expr)`: `undefined` and `0` are falsy. -/
def jsFalsyNum : Option Int → Bool
  | none => true
  | some n => decide (n = 0)

/-- One remote debug call issued by the breakpoint operations. -/
inductive XqyDbgCall where
  | lineLookup : String → Int → XqyDbgCall
  | breakSet : Int → XqyDbgCall
  | breakClear : Int → XqyDbgCall
deriving DecidableEq, Repr

/-- `XqyRuntime.findBreakPointExpr(location)`: one `dbg:line` lookup whose
result (`serverExprId`, supplied here as the remote engine's answer) is
cached on the breakpoint (`location.expr = ...`) and also returned. -/
def XqyRuntime.findBreakPointExpr (serverExprId : Int) (bp : XqyBreakPoint) :
    XqyBreakPoint × Int × List XqyDbgCall :=
  ({ bp with expr := some serverExprId }, serverExprId,
    [.lineLookup bp.uri bp.line])

/-- `XqyRuntime.setBreakPoint(location)`: resolve-then-`dbg:break` when
`!location.expr`, otherwise `dbg:break` directly with the cached id.
Returns the updated breakpoint and the calls issued. -/
def XqyRuntime.setBreakPoint (serverExprId : Int) (bp : XqyBreakPoint) :
    XqyBreakPoint × List XqyDbgCall :=
  if jsFalsyNum bp.expr then
    match XqyRuntime.findBreakPointExpr serverExprId bp with
    | (bp2, e, calls) => (bp2, calls ++ [.breakSet e])
  else
    (bp, [.breakSet (bp.expr.getD 0)])

/-- `XqyRuntime.removeBreakPoint(location)`: resolve-then-`dbg:clear` when
`!location.expr`, otherwise `dbg:clear` directly with the cached id. -/
def XqyRuntime.removeBreakPoint (serverExprId : Int) (bp : XqyBreakPoint) :
    XqyBreakPoint × List XqyDbgCall :=
  if jsFalsyNum bp.expr then
    match XqyRuntime.findBreakPointExpr serverExprId bp with
    | (bp2, e, calls) => (bp2, calls ++ [.breakClear e])
  else
    (bp, [.breakClear (bp.expr.getD 0)])

/-- Two consecutive `setBreakPoint` calls on the same breakpoint object
against a server answering every `dbg:line` lookup with `serverExprId`. -/
def XqyRuntime.setBreakPointTwice (serverExprId : Int) (bp : XqyBreakPoint) :
    XqyBreakPoint × List XqyDbgCall :=
  match XqyRuntime.setBreakPoint serverExprId bp with
  | (bp1, calls1) =>
      match XqyRuntime.setBreakPoint serverExprId bp1 with
      | (bp2, calls2) => (bp2, calls1 ++ calls2)

/-- Number of `dbg:line` lookup calls in a call list. -/
def countLookups (calls : List XqyDbgCall) : Nat :=
  (calls.filter fun c =>
    match c with
    | .lineLookup _ _ => true
    | _ => false).length

/-- Number of `dbg:break` set calls in a call list. -/
def countSets (calls : List XqyDbgCall) : Nat :=
  (calls.filter fun c =>
    match c with
    | .breakSet _ => true
    | _ => false).length

/-- JavaScript `s.startsWith('\x7b')`: does the text begin with a left
curly brace? -/
def jsStartsWithLbrace (s : String) : Bool :=
  match s.data with
  | [] => false
  | c :: _ => decide (c = '{')

/-- Result of `sendRows`: either a query submitted to
`databaseClient.rows.query` with the given `queryType` option, or a locally
resolved response (columns, rows, preRequestError). -/
inductive RowsOutcome where
  | submitted : String → String → RowsOutcome
  | response : List String → List String → String → RowsOutcome
deriving DecidableEq, Repr

/-- `sendRowsSerialized`: `JSON.parse` (modelled by the `jsonParse` oracle,
whose `ok` value is the parsed query — for a `{`-prefixed text always a
truthy object) guarded by try/catch; a parse failure resolves with the
empty result shape carrying the parse error's message. -/
def sendRowsSerialized (jsonParse : String → Except String String)
    (actualQuery : String) : RowsOutcome :=
  match jsonParse actualQuery with
  | .ok jsonQuery => .submitted "json" jsonQuery
  | .error msg => .response [] [] msg

/-- `sendRows`: the serialized-JSON path when the text starts with a left
curly brace, otherwise the DSL path. -/
def sendRows (jsonParse : String → Except String String)
    (actualQuery : String) : RowsOutcome :=
  if jsStartsWithLbrace actualQuery then
    sendRowsSerialized jsonParse actualQuery
  else
    .submitted "dsl" actualQuery

/-- A quick-pick entry for one discovered app server. -/
structure MlxprsQuickPickItem where
  label : String
  description : String
  detail : String
deriving DecidableEq, Repr

/-- The per-session fan-out inside `ClientContext.getConnectedServers`: for
each `dbg:connected()` item an `xdmp:server-name` lookup (outcome supplied
by the `serverNameLookup` oracle); a success pushes `XQY:` + name, a failed
lookup contributes nothing and fails nothing else. -/
def getConnectedServersXqy (serverNameLookup : String → Except String String)
    (items : List String) : List String :=
  items.filterMap fun item =>
    match serverNameLookup item with
    | .ok name => some ("XQY:" ++ name)
    | .error _ => none

/-- `ClientContext.getConnectedServers`' result list: the XQY entries from
the per-session fan-out followed by `JS:` + label for each already filtered
JS server. -/
def getConnectedServers (serverNameLookup : String → Except String String)
    (items : List String) (connectedJsServers : List MlxprsQuickPickItem) :
    List String :=
  getConnectedServersXqy serverNameLookup items ++
    connectedJsServers.map (fun c => "JS:" ++ c.label)

/-- `filterJsServerByConnectedStatus`: probe each candidate through the
manage client (outcome supplied by the `probe` oracle keyed by the
candidate's label); keep it only when the probe resolves with exactly the
required marker; a rejected probe is logged and dropped. -/
def filterJsServerByConnectedStatus (probe : String → Except String String)
    (choices : List MlxprsQuickPickItem) (requiredResponse : String) :
    List MlxprsQuickPickItem :=
  choices.filter fun choice =>
    match probe choice.label with
    | .ok response => response == requiredResponse
    | .error _ => false

/-! Helper lemmas shared between claims. -/

theorem JSVal.strictEqValSymm {a b : JSVal} (h : a.strictEq b = true) :
    b.strictEq a = true := by
  cases a <;> cases b <;> simp [JSVal.strictEq] at h ⊢; exact h.symm

theorem JSVal.strictEq_refl_of_ne_nan {a : JSVal} (h : a ≠ JSVal.nan) :
    a.strictEq a = true := by
  cases a <;> simp_all [JSVal.strictEq]

theorem JSNum.strictEqNumSymm {a b : JSNum} (h : a.strictEq b = true) :
    b.strictEq a = true := by
  cases a <;> cases b <;> simp [JSNum.strictEq] at h ⊢; exact h.symm

theorem mkMlClientParameters_authType_cases (raw : RawBag) :
    (mkMlClientParameters raw).authType = "DIGEST" ∨
    (mkMlClientParameters raw).authType = "BASIC" ∨
    (mkMlClientParameters raw).authType = "CLOUD" := by
  unfold mkMlClientParameters
  cases raw.authType with
  | none => simp
  | some s =>
      by_cases hs : s = "DIGEST" ∨ s = "BASIC" ∨ s = "CLOUD"
      · simp only [hs, if_true]
      · simp [hs]

theorem mkMlClientParameters_authType_toUpper (raw : RawBag) :
    jsToUpperCase (mkMlClientParameters raw).authType
      = (mkMlClientParameters raw).authType := by
  rcases mkMlClientParameters_authType_cases raw with h | h | h <;> rw [h] <;>
    decide

/-- C1: launching a debug session. Amended: the XQuery runtime behaves as the
claim states (success sets the state to `launched` and the session id from
the first result row; failure sets the state to `error` and leaves the
session id untouched), but `MLRuntime.launchWithDebugEval` sets the state
to `launched` before dispatching — regardless of the dispatch outcome — and
never assigns the session id or transitions to `error`. -/
theorem c1_launch_amended :
    (∀ (s : XqyRuntime) (v : String) (rest : List String),
        (s.launchWithDebugEval (.ok (v, rest))).runTimeState
            = RunTimeState.launched ∧
        (s.launchWithDebugEval (.ok (v, rest))).rid = v)
  ∧ (∀ (s : XqyRuntime) (e : String),
        (s.launchWithDebugEval (.error e)).runTimeState = RunTimeState.error ∧
        (s.launchWithDebugEval (.error e)).rid = s.rid)
  ∧ (∀ (s : MLRuntime) (dispatch : Except String String),
        (s.launchWithDebugEval dispatch).1.runTimeState
            = RunTimeState.launched ∧
        (s.launchWithDebugEval dispatch).1.rid = s.rid) := by
  refine ⟨fun s v rest => ⟨rfl, rfl⟩, fun s e => ⟨rfl, rfl⟩,
    fun s dispatch => ⟨rfl, rfl⟩⟩

/-- C1 counterexample: on a failed dispatch the SJS runtime's state is
`launched`, not `error` as the claim requires of both runtimes; and on a
successful dispatch its session id remains empty instead of being set from
the first result row. -/
theorem c1_launch_counterexample :
    (({} : MLRuntime).launchWithDebugEval
        (.error "connect ECONNREFUSED")).1.runTimeState ≠ RunTimeState.error
  ∧ (({} : MLRuntime).launchWithDebugEval
        (.ok "7034581634")).1.rid = "" := by
  exact ⟨by decide, rfl⟩

/-- C2: `terminate()`. Amended: in both runtimes `terminate` issues the
best-effort remote cancellation call and performs no local state
transition at all — the local state after `terminate` is whatever it was
before, whether the remote call succeeds or fails (moving to `shutdown` is
left to external callers via `setRunTimeState`). -/
theorem c2_terminate_amended :
    (∀ (s : MLRuntime) (outcome : Except String String),
        (s.terminate outcome).1 = s)
  ∧ (∀ (s : XqyRuntime) (outcome : Except String String),
        (s.terminate outcome).1 = s) := by
  exact ⟨fun s outcome => rfl, fun s outcome => rfl⟩

/-- C2 counterexample: a launched SJS runtime whose remote cancellation
call succeeds is still `launched` after `terminate`, not `shutdown` as the
claim states. -/
theorem c2_terminate_counterexample :
    (({ rid := "123", runTimeState := .launched } : MLRuntime).terminate
        (.ok "")).1.runTimeState ≠ RunTimeState.shutdown := by
  decide

/-- C3: `waitTillPaused` polls `wait()` until a non-empty payload arrives:
against a server answering the empty string `n` times and then a non-empty
payload it issues exactly `n + 1` `wait()` calls and resolves with that
payload; a rejected `wait()` call makes it reject immediately with that
error after exactly the polls issued so far, regardless of any further
server behaviour. -/
theorem c3_waitTillPaused_confirmed :
    (∀ (n : Nat) (payload : String), payload ≠ "" →
        MLRuntime.waitTillPaused
            (List.replicate n (WaitOutcome.ok "") ++ [WaitOutcome.ok payload])
          = some (WaitOutcome.ok payload, n + 1))
  ∧ (∀ (n : Nat) (e : String) (rest : List WaitOutcome),
        MLRuntime.waitTillPaused
            (List.replicate n (WaitOutcome.ok "") ++ WaitOutcome.err e :: rest)
          = some (WaitOutcome.err e, n + 1)) := by
  constructor
  · intro n payload hp
    induction n with
    | zero => simp [MLRuntime.waitTillPaused, hp]
    | succ k ih => simp [MLRuntime.waitTillPaused, List.replicate_succ, ih]
  · intro n e rest
    induction n with
    | zero => simp [MLRuntime.waitTillPaused]
    | succ k ih => simp [MLRuntime.waitTillPaused, List.replicate_succ, ih]

/-- C3 witness: three empty polls then a payload resolve after exactly four
`wait()` calls; an error on the third poll rejects after exactly three. -/
theorem c3_waitTillPaused_witness :
    MLRuntime.waitTillPaused
        (List.replicate 3 (WaitOutcome.ok "") ++ [WaitOutcome.ok "paused"])
      = some (WaitOutcome.ok "paused", 4)
  ∧ MLRuntime.waitTillPaused
        (List.replicate 2 (WaitOutcome.ok "")
          ++ WaitOutcome.err "socket hang up" :: [WaitOutcome.ok "paused"])
      = some (WaitOutcome.err "socket hang up", 3) :=
  ⟨c3_waitTillPaused_confirmed.1 3 "paused" (by decide),
   c3_waitTillPaused_confirmed.2 2 "socket hang up" [WaitOutcome.ok "paused"]⟩

/-- C4: breakpoint expression-id lookup and caching. Amended: when
`bp.expr` is unresolved, `setBreakPoint`/`removeBreakPoint` each issue
exactly one `dbg:line` lookup, cache the returned id on the breakpoint, and
issue the set/clear call with that id; and two consecutive `setBreakPoint`
calls on the same breakpoint issue exactly one lookup and two set calls
provided the looked-up id is nonzero — a zero id is falsy under the
source's `!location.expr` cache test, so the second call would repeat the
lookup. -/
theorem c4_breakpoint_amended :
    (∀ (serverExprId : Int) (bp : XqyBreakPoint), jsFalsyNum bp.expr = true →
        XqyRuntime.setBreakPoint serverExprId bp
          = ({ bp with expr := some serverExprId },
             [.lineLookup bp.uri bp.line, .breakSet serverExprId]))
  ∧ (∀ (serverExprId : Int) (bp : XqyBreakPoint), jsFalsyNum bp.expr = true →
        XqyRuntime.removeBreakPoint serverExprId bp
          = ({ bp with expr := some serverExprId },
             [.lineLookup bp.uri bp.line, .breakClear serverExprId]))
  ∧ (∀ (serverExprId : Int) (bp : XqyBreakPoint), jsFalsyNum bp.expr = true →
        serverExprId ≠ 0 →
        countLookups (XqyRuntime.setBreakPointTwice serverExprId bp).2 = 1 ∧
        countSets (XqyRuntime.setBreakPointTwice serverExprId bp).2 = 2) := by
  refine ⟨?_, ?_, ?_⟩
  · intro serverExprId bp h
    simp [XqyRuntime.setBreakPoint, XqyRuntime.findBreakPointExpr, h]
  · intro serverExprId bp h
    simp [XqyRuntime.removeBreakPoint, XqyRuntime.findBreakPointExpr, h]
  · intro serverExprId bp h hid
    have h1 : XqyRuntime.setBreakPoint serverExprId bp
        = ({ bp with expr := some serverExprId },
           [.lineLookup bp.uri bp.line, .breakSet serverExprId]) := by
      simp [XqyRuntime.setBreakPoint, XqyRuntime.findBreakPointExpr, h]
    have h2 : XqyRuntime.setBreakPoint serverExprId
          { bp with expr := some serverExprId }
        = ({ bp with expr := some serverExprId }, [.breakSet serverExprId]) := by
      simp [XqyRuntime.setBreakPoint, jsFalsyNum, hid]
    simp [XqyRuntime.setBreakPointTwice, h1, h2, countLookups, countSets,
      List.filter]

/-- C4 witness: an unresolved breakpoint with a nonzero looked-up id: one
resolve-and-set call sequence, then a cached second set; one lookup and two
set calls in total. -/
theorem c4_breakpoint_witness :
    XqyRuntime.setBreakPoint 42 { uri := "/ex.xqy", line := 7 }
      = ({ uri := "/ex.xqy", line := 7, expr := some 42 },
         [.lineLookup "/ex.xqy" 7, .breakSet 42])
  ∧ countLookups (XqyRuntime.setBreakPointTwice 42
        { uri := "/ex.xqy", line := 7 }).2 = 1
  ∧ countSets (XqyRuntime.setBreakPointTwice 42
        { uri := "/ex.xqy", line := 7 }).2 = 2 :=
  ⟨c4_breakpoint_amended.1 42 { uri := "/ex.xqy", line := 7 } (by decide),
   (c4_breakpoint_amended.2.2 42 { uri := "/ex.xqy", line := 7 } (by decide)
      (by decide)).1,
   (c4_breakpoint_amended.2.2 42 { uri := "/ex.xqy", line := 7 } (by decide)
      (by decide)).2⟩

/-- C4 counterexample: when the remote lookup answers with expression id 0,
the cached id is falsy, so the second `setBreakPoint` performs a second
`dbg:line` lookup — two lookups and two set calls instead of the claimed
one lookup and two set calls. -/
theorem c4_breakpoint_counterexample :
    countLookups (XqyRuntime.setBreakPointTwice 0
        { uri := "/ex.xqy", line := 3 }).2 = 2
  ∧ countSets (XqyRuntime.setBreakPointTwice 0
        { uri := "/ex.xqy", line := 3 }).2 = 2 := by
  refine ⟨by decide, by decide⟩

/-- C5: `sameAs`. Amended: `sameAs` is symmetric, and it is reflexive — and
more generally true for every pair of parameter objects agreeing on all
compared fields, even when non-compared fields (base paths, manage / admin /
test ports) differ — provided `accessTokenDuration` is not `NaN`: strict
equality makes a `NaN` `accessTokenDuration` unequal to itself, and only
the `port` field has the explicit both-`NaN` escape, under which two
not-a-number ports are indeed treated as equal on the port field. -/
theorem c5_sameAs_amended :
    (∀ a b : MlClientParameters, a.sameAs b = true → b.sameAs a = true)
  ∧ (∀ p : MlClientParameters, p.accessTokenDuration ≠ JSVal.nan →
        p.sameAs p = true)
  ∧ (∀ a b : MlClientParameters,
        a.host = b.host → a.port = b.port → a.contentDb = b.contentDb →
        a.modulesDb = b.modulesDb → a.user = b.user → a.pwd = b.pwd →
        a.authType = b.authType → a.apiKey = b.apiKey →
        a.accessTokenDuration = b.accessTokenDuration →
        a.accessTokenDuration ≠ JSVal.nan →
        a.ssl = b.ssl → a.pathToCa = b.pathToCa →
        a.rejectUnauthorized = b.rejectUnauthorized →
        a.sameAs b = true)
  ∧ (∀ a b : MlClientParameters, a.port = JSNum.nan → b.port = JSNum.nan →
        ((a.port.isNaNb && b.port.isNaNb) || a.port.strictEq b.port)
          = true) := by
  refine ⟨?_, ?_, ?_, ?_⟩
  · intro a b h
    simp only [MlClientParameters.sameAs, Bool.and_eq_true, Bool.or_eq_true,
      beq_iff_eq] at h ⊢
    obtain ⟨⟨⟨⟨⟨⟨⟨⟨⟨⟨⟨h1, h2⟩, h3⟩, h4⟩, h5⟩, h6⟩, h7⟩, h8⟩, h9⟩, h10⟩,
      h11⟩, h12⟩ := h
    refine ⟨⟨⟨⟨⟨⟨⟨⟨⟨⟨⟨h1.symm, ?_⟩, h3.symm⟩, h4.symm⟩, h5.symm⟩, h6.symm⟩,
      h7.symm⟩, h8.symm⟩, JSVal.strictEqValSymm h9⟩, h10.symm⟩,
      h11.symm⟩, h12.symm⟩
    rcases h2 with ⟨ha, hb⟩ | hab
    · exact Or.inl ⟨hb, ha⟩
    · exact Or.inr (JSNum.strictEqNumSymm hab)
  · intro p hp
    cases hport : p.port with
    | nan =>
        simp [MlClientParameters.sameAs, hport, JSNum.isNaNb,
          JSVal.strictEq_refl_of_ne_nan hp]
    | num n =>
        simp [MlClientParameters.sameAs, hport, JSNum.isNaNb, JSNum.strictEq,
          JSVal.strictEq_refl_of_ne_nan hp]
  · intro a b h1 h2 h3 h4 h5 h6 h7 h8 h9 h9n h10 h11 h12
    have hacc : b.accessTokenDuration.strictEq b.accessTokenDuration = true :=
      JSVal.strictEq_refl_of_ne_nan (h9 ▸ h9n)
    cases hb : b.port with
    | nan =>
        simp [MlClientParameters.sameAs, h1, h2, h3, h4, h5, h6, h7, h8, h9,
          h10, h11, h12, hb, JSNum.isNaNb, hacc]
    | num n =>
        simp [MlClientParameters.sameAs, h1, h2, h3, h4, h5, h6, h7, h8, h9,
          h10, h11, h12, hb, JSNum.isNaNb, JSNum.strictEq, hacc]
  · intro a b ha hb
    rw [ha, hb]
    decide

/-- C5 witness: a constructor-produced parameter object with both `port`
and `testPort` parsed from missing fields (hence `NaN`) and differing
non-compared base paths still compares equal: reflexivity at a `NaN`-port
object, and the pair case at two objects differing only in base paths and
role ports. -/
theorem c5_sameAs_witness :
    (mkMlClientParameters { host := some "localhost" }).sameAs
        (mkMlClientParameters { host := some "localhost" }) = true
  ∧ (mkMlClientParameters { host := some "h", user := some "u" }).sameAs
        (mkMlClientParameters { host := some "h", user := some "u", manageBasePath := some "/manage-alt", adminPort := some (.num 9001), testBasePath := some "/test-alt" }) = true :=
  ⟨c5_sameAs_amended.2.1 (mkMlClientParameters { host := some "localhost" })
      (by decide),
   c5_sameAs_amended.2.2.1
      (mkMlClientParameters { host := some "h", user := some "u" })
      (mkMlClientParameters { host := some "h", user := some "u", manageBasePath := some "/manage-alt", adminPort := some (.num 9001), testBasePath := some "/test-alt" })
      (by decide) (by decide) (by decide) (by decide) (by decide) (by decide)
      (by decide) (by decide) (by decide) (by decide) (by decide) (by decide)
      (by decide)⟩

/-- C5 counterexample: a parameter object constructed from a raw bag whose
`accessTokenDuration` is `NaN` is not `sameAs` itself — `NaN === NaN` is
false and only the `port` comparison has a both-`NaN` escape — so `sameAs`
is not reflexive as claimed. -/
theorem c5_sameAs_counterexample :
    (mkMlClientParameters { host := some "localhost", accessTokenDuration := some JSVal.nan }).sameAs
      (mkMlClientParameters { host := some "localhost", accessTokenDuration := some JSVal.nan }) = false := by
  decide

theorem mkClientFactory_authType_cases (raw : RawBag) :
    (mkClientFactory raw).authType = "DIGEST" ∨
    (mkClientFactory raw).authType = "BASIC" := by
  unfold mkClientFactory
  cases raw.authType with
  | none => simp
  | some s =>
      by_cases hs : s = "DIGEST" ∨ s = "BASIC"
      · simp only [hs, if_true]
      · simp [hs]

/-- C6: auth-scheme normalization. Amended: the constructed scheme is
always one of DIGEST, BASIC, CLOUD in both constructors, and
`MlClientParameters` preserves all three recognized values; but the
`ClientFactory` constructor recognizes only DIGEST and BASIC — a CLOUD
input there is coerced to DIGEST like any unrecognized value. -/
theorem c6_authType_amended :
    (∀ raw : RawBag,
        (mkMlClientParameters raw).authType = "DIGEST" ∨
        (mkMlClientParameters raw).authType = "BASIC" ∨
        (mkMlClientParameters raw).authType = "CLOUD")
  ∧ (∀ (raw : RawBag) (s : String), raw.authType = some s →
        s = "DIGEST" ∨ s = "BASIC" ∨ s = "CLOUD" →
        (mkMlClientParameters raw).authType = s)
  ∧ (∀ raw : RawBag,
        (mkClientFactory raw).authType = "DIGEST" ∨
        (mkClientFactory raw).authType = "BASIC" ∨
        (mkClientFactory raw).authType = "CLOUD")
  ∧ (∀ (raw : RawBag) (s : String), raw.authType = some s →
        s = "DIGEST" ∨ s = "BASIC" →
        (mkClientFactory raw).authType = s)
  ∧ (∀ raw : RawBag, raw.authType = some "CLOUD" →
        (mkClientFactory raw).authType = "DIGEST") := by
  refine ⟨mkMlClientParameters_authType_cases, ?_, ?_, ?_, ?_⟩
  · intro raw s hv hs
    unfold mkMlClientParameters
    simp [hv, hs]
  · intro raw
    rcases mkClientFactory_authType_cases raw with h | h
    · exact Or.inl h
    · exact Or.inr (Or.inl h)
  · intro raw s hv hs
    unfold mkClientFactory
    simp [hv, hs]
  · intro raw hv
    unfold mkClientFactory
    simp [hv]

/-- C6 witness: a recognized DIGEST input is preserved by both
constructors, and BASIC is preserved by the factory. -/
theorem c6_authType_witness :
    (mkMlClientParameters { authType := some "CLOUD" }).authType = "CLOUD"
  ∧ (mkClientFactory { authType := some "BASIC" }).authType = "BASIC" :=
  ⟨c6_authType_amended.2.1 { authType := some "CLOUD" } "CLOUD" rfl
      (by decide),
   c6_authType_amended.2.2.2.1 { authType := some "BASIC" } "BASIC" rfl
      (by decide)⟩

/-- C6 counterexample: a raw bag selecting the CLOUD scheme is coerced to
DIGEST by the `ClientFactory` constructor, so CLOUD is not preserved as
given there. -/
theorem c6_authType_counterexample :
    (mkClientFactory { authType := some "CLOUD" }).authType = "DIGEST"
  ∧ (mkClientFactory { authType := some "CLOUD" }).authType ≠ "CLOUD" := by
  refine ⟨by decide, by decide⟩

/-- C7: parameter immutability across `ClientContext` construction.
Amended: the `ClientContext` constructor mutates the parameter object it is
handed — it reassigns `authType` to its uppercase form (an identity for
constructor-produced parameters, whose scheme is already uppercase) and
replaces a falsy (empty or absent) `contentDb` with `null`; every other
field is unchanged, and a constructor-produced parameter object with a
nonempty `contentDb` is left entirely unchanged. -/
theorem c7_clientContext_amended :
    (∀ p : MlClientParameters,
        (ClientContext.updateParams p).host = p.host ∧
        (ClientContext.updateParams p).port = p.port ∧
        (ClientContext.updateParams p).modulesDb = p.modulesDb ∧
        (ClientContext.updateParams p).managePort = p.managePort ∧
        (ClientContext.updateParams p).adminPort = p.adminPort ∧
        (ClientContext.updateParams p).testPort = p.testPort ∧
        (ClientContext.updateParams p).user = p.user ∧
        (ClientContext.updateParams p).pwd = p.pwd ∧
        (ClientContext.updateParams p).apiKey = p.apiKey ∧
        (ClientContext.updateParams p).accessTokenDuration
            = p.accessTokenDuration ∧
        (ClientContext.updateParams p).ssl = p.ssl ∧
        (ClientContext.updateParams p).pathToCa = p.pathToCa ∧
        (ClientContext.updateParams p).rejectUnauthorized
            = p.rejectUnauthorized ∧
        (ClientContext.updateParams p).manageBasePath = p.manageBasePath ∧
        (ClientContext.updateParams p).adminBasePath = p.adminBasePath ∧
        (ClientContext.updateParams p).restBasePath = p.restBasePath ∧
        (ClientContext.updateParams p).testBasePath = p.testBasePath ∧
        (ClientContext.updateParams p).authType = jsToUpperCase p.authType)
  ∧ (∀ p : MlClientParameters, p.contentDb ≠ none → p.contentDb ≠ some "" →
        (ClientContext.updateParams p).contentDb = p.contentDb)
  ∧ (∀ raw : RawBag, (mkMlClientParameters raw).contentDb ≠ some "" →
        ClientContext.updateParams (mkMlClientParameters raw)
          = mkMlClientParameters raw) := by
  refine ⟨?_, ?_, ?_⟩
  · intro p
    simp only [ClientContext.updateParams]
    split <;> simp
  · intro p h1 h2
    simp only [ClientContext.updateParams]
    split
    · rename_i h
      rcases h with h | h
      · exact absurd h h1
      · exact absurd h h2
    · rfl
  · intro raw h
    simp only [ClientContext.updateParams]
    split
    · rename_i hcond
      exfalso
      rcases hcond with hc | hc
      · revert hc
        unfold mkMlClientParameters
        simp
      · exact absurd hc h
    · rw [mkMlClientParameters_authType_toUpper raw]

/-- C7 witness: a constructor-produced parameter object with a nonempty
content database passes through `ClientContext` construction unchanged. -/
theorem c7_clientContext_witness :
    ClientContext.updateParams
        (mkMlClientParameters { host := some "localhost", contentDb := some "Documents" })
      = mkMlClientParameters { host := some "localhost", contentDb := some "Documents" } :=
  c7_clientContext_amended.2.2
    { host := some "localhost", contentDb := some "Documents" } (by decide)

/-- C7 counterexample: constructing a `ClientContext` over a parameter
object whose `contentDb` is empty (the constructor default) mutates that
object — `contentDb` becomes `null` — so the parameters are not left
unchanged as the claim states. -/
theorem c7_clientContext_counterexample :
    ClientContext.updateParams (mkMlClientParameters { host := some "localhost" })
      ≠ mkMlClientParameters { host := some "localhost" }
  ∧ (ClientContext.updateParams
        (mkMlClientParameters { host := some "localhost" })).contentDb = none
  ∧ (mkMlClientParameters { host := some "localhost" }).contentDb = some "" := by
  refine ⟨by decide, by decide, by decide⟩

/-- C8: role-parameter derivation. The manage- and test-role parts of the
claim hold (empty content and modules database names regardless of the
base factory), and the shared fields, role port and role base-path are
copied as claimed; but the rest-role derivation passes the base factory's
database under the raw key `database`, which the `ClientFactory`
constructor never reads (it reads `contentDb`/`documentsDb`), so the
derived rest-role content database is always empty instead of the base
factory's database — evaluated here at a factory built with database
`mydb`. -/
theorem c8_restClientParams_database_bug :
    ((mkClientFactory { host := some "localhost", port := some (.num 8000), contentDb := some "mydb", modulesDb := some "mymods" }).newRestClientParams {}).database = ""
  ∧ (mkClientFactory { host := some "localhost", port := some (.num 8000), contentDb := some "mydb", modulesDb := some "mymods" }).database = "mydb"
  ∧ (∀ f : ClientFactory, (f.newRestClientParams {}).database = "")
  ∧ (∀ f : ClientFactory,
        (f.newManageClientParams {}).database = "" ∧
        (f.newManageClientParams {}).modulesDb = "" ∧
        (f.newTestClientParams {}).database = "" ∧
        (f.newTestClientParams {}).modulesDb = "") := by
  refine ⟨by decide, by decide, fun f => rfl, fun f => ⟨rfl, rfl, rfl, rfl⟩⟩

/-- C8 support: the parts of the derivation contract that do hold — the
shared fields (host, user, password, ssl, pathToCa, rejectUnauthorized)
are copied, the role's own port and base-path are substituted, the
rest-role modules database is copied, and a caller override applied last
wins for keys the constructor reads. -/
theorem c8_roleParams_copying :
    (∀ f : ClientFactory,
        (f.newRestClientParams {}).host = f.host ∧
        (f.newRestClientParams {}).user = f.user ∧
        (f.newRestClientParams {}).password = f.password ∧
        (f.newRestClientParams {}).ssl = f.ssl ∧
        (f.newRestClientParams {}).pathToCa = f.pathToCa ∧
        (f.newRestClientParams {}).rejectUnauthorized
            = f.rejectUnauthorized ∧
        (f.newRestClientParams {}).port = f.port ∧
        (f.newRestClientParams {}).basePath = jsOrStr f.restBasePath "" ∧
        (f.newRestClientParams {}).modulesDb
            = jsOrStr (some f.modulesDb) "")
  ∧ (∀ f : ClientFactory,
        (f.newManageClientParams {}).host = f.host ∧
        (f.newManageClientParams {}).port = f.managePort ∧
        (f.newManageClientParams {}).basePath
            = jsOrStr (some f.manageBasePath) "" ∧
        (f.newTestClientParams {}).port = f.testPort ∧
        (f.newTestClientParams {}).basePath
            = jsOrStr (some f.testBasePath) "")
  ∧ (∀ (f : ClientFactory) (p : JSNum) (db : String),
        (f.newManageClientParams { port := some p }).port = p ∧
        (f.newRestClientParams { contentDb := some db }).database
            = jsOrStr (some db) "") := by
  refine ⟨fun f => ⟨rfl, rfl, rfl, rfl, ?_, rfl, rfl, rfl, rfl⟩,
    fun f => ⟨rfl, rfl, rfl, rfl, rfl⟩,
    fun f p db => ⟨rfl, rfl⟩⟩
  show jsOrStr (some (jsOrStr (some f.pathToCa) "")) "" = f.pathToCa
  by_cases h : f.pathToCa = ""
  · simp [jsOrStr, h]
  · simp [jsOrStr, h]

/-- C9: `sendRows` path selection and malformed-JSON handling: a query not
beginning with a left brace goes down the DSL path; a brace-prefixed query
whose `JSON.parse` succeeds is submitted as a serialized JSON query; and a
brace-prefixed query whose parse throws resolves — never rejects — with
empty columns and rows and the parse error's message as
`preRequestError`. -/
theorem c9_sendRows_confirmed :
    (∀ (jsonParse : String → Except String String) (q : String),
        jsStartsWithLbrace q = false →
        sendRows jsonParse q = RowsOutcome.submitted "dsl" q)
  ∧ (∀ (jsonParse : String → Except String String) (q j : String),
        jsStartsWithLbrace q = true → jsonParse q = .ok j →
        sendRows jsonParse q = RowsOutcome.submitted "json" j)
  ∧ (∀ (jsonParse : String → Except String String) (q msg : String),
        jsStartsWithLbrace q = true → jsonParse q = .error msg →
        sendRows jsonParse q = RowsOutcome.response [] [] msg) := by
  refine ⟨?_, ?_, ?_⟩
  · intro jsonParse q h
    simp [sendRows, h]
  · intro jsonParse q j h hp
    simp [sendRows, sendRowsSerialized, h, hp]
  · intro jsonParse q msg h hp
    simp [sendRows, sendRowsSerialized, h, hp]

/-- C9 witness: a malformed brace-prefixed query resolves with the empty
result shape carrying the parse message; a DSL query is submitted
unchanged. -/
theorem c9_sendRows_witness :
    sendRows (fun _ => Except.error "Unexpected end of JSON input") "\x7b bad"
      = RowsOutcome.response [] [] "Unexpected end of JSON input"
  ∧ sendRows (fun q => Except.ok q) "op.fromView(null, null)"
      = RowsOutcome.submitted "dsl" "op.fromView(null, null)" :=
  ⟨c9_sendRows_confirmed.2.2 (fun _ => Except.error "Unexpected end of JSON input")
      "\x7b bad" "Unexpected end of JSON input" (by decide) rfl,
   c9_sendRows_confirmed.1 (fun q => Except.ok q) "op.fromView(null, null)"
      (by decide)⟩

/-- C10: partial-failure tolerance of discovery. Both fan-outs are total —
no single candidate's failure fails the enumeration — and their outputs
are characterized exactly: a session contributes `XQY:` + name to
`getConnectedServers`'s XQuery part iff its name lookup succeeded, and a
candidate survives `filterJsServerByConnectedStatus` iff its probe
resolved with exactly the required marker (a rejected probe is dropped). -/
theorem c10_discovery_confirmed :
    (∀ (serverNameLookup : String → Except String String)
        (items : List String) (x : String),
        x ∈ getConnectedServersXqy serverNameLookup items ↔
          ∃ item ∈ items, ∃ name, serverNameLookup item = .ok name ∧
            x = "XQY:" ++ name)
  ∧ (∀ (probe : String → Except String String)
        (choices : List MlxprsQuickPickItem) (requiredResponse : String)
        (c : MlxprsQuickPickItem),
        c ∈ filterJsServerByConnectedStatus probe choices requiredResponse ↔
          c ∈ choices ∧ probe c.label = .ok requiredResponse) := by
  constructor
  · intro serverNameLookup items x
    simp only [getConnectedServersXqy, List.mem_filterMap]
    constructor
    · rintro ⟨item, hmem, hf⟩
      cases hl : serverNameLookup item with
      | ok name =>
          refine ⟨item, hmem, name, hl, ?_⟩
          rw [hl] at hf
          simp at hf
          exact hf.symm
      | error e =>
          rw [hl] at hf
          simp at hf
    · rintro ⟨item, hmem, name, hl, hx⟩
      exact ⟨item, hmem, by rw [hl, hx]⟩
  · intro probe choices requiredResponse c
    simp only [filterJsServerByConnectedStatus, List.mem_filter]
    constructor
    · rintro ⟨hmem, hp⟩
      refine ⟨hmem, ?_⟩
      cases hl : probe c.label with
      | ok r =>
          rw [hl] at hp
          simp at hp
          rw [hp]
      | error e =>
          rw [hl] at hp
          simp at hp
    · rintro ⟨hmem, hp⟩
      refine ⟨hmem, by rw [hp]; simp⟩

/-- C10 witness: one healthy candidate among a failing name lookup and a
failing probe: the failures are dropped, the healthy entries survive. -/
theorem c10_discovery_witness :
    ("XQY:Admin-UI" ∈ getConnectedServersXqy
        (fun item => if item = "8001" then Except.ok "Admin-UI" else Except.error "XDMP-NOTFOUND")
        ["8001", "9999"])
  ∧ (⟨"AppSrv", "7", "AppSrv on localhost:8010"⟩ ∈
        filterJsServerByConnectedStatus
          (fun label => if label = "AppSrv" then Except.ok "true" else Except.error "SEC-PRIV")
          [⟨"AppSrv", "7", "AppSrv on localhost:8010"⟩, ⟨"Broken", "8", "Broken on localhost:8011"⟩]
          "true") :=
  ⟨(c10_discovery_confirmed.1
      (fun item => if item = "8001" then Except.ok "Admin-UI" else Except.error "XDMP-NOTFOUND")
      ["8001", "9999"] "XQY:Admin-UI").mpr
      ⟨"8001", by decide, "Admin-UI", rfl, rfl⟩,
   (c10_discovery_confirmed.2
      (fun label => if label = "AppSrv" then Except.ok "true" else Except.error "SEC-PRIV")
      [⟨"AppSrv", "7", "AppSrv on localhost:8010"⟩, ⟨"Broken", "8", "Broken on localhost:8011"⟩]
      "true" ⟨"AppSrv", "7", "AppSrv on localhost:8010"⟩).mpr
      ⟨by decide, rfl⟩⟩

end Mlxprs
